import Mathlib

/-!
Verification of the particle lifecycle manager and scene generators of the
bevyjam demo (src/main.rs), via a shallow embedding.

The core system is `particles` (src/main.rs:38-47): each tick it runs one loop
iteration (spawn count 1) that
  1. reads `ringbuffer.get(0)` (the oldest handle, `none` iff empty) and, when
     present, issues a recursive despawn request for that handle;
  2. spawns a fresh entity, configures it via `spawn_particles`, and pushes its
     handle into the ring buffer.
The ring buffer is a `ConstGenericRingBuffer<Entity, 512>` from the ringbuffer
crate: fixed capacity 512, `push` overwrites (drops) the oldest element when
full, `get(0)` returns the oldest remaining element when non-empty.

Entity handles are modelled as natural numbers issued by a fresh-id counter;
the despawn requests issued so far are collected, in order, in a list.
-/

namespace Bevyjam

/-- src/main.rs:33 `const MAX_PARTICLES: usize = 512`. -/
def MAX_PARTICLES : Nat := 512

/-- Functional model of `ConstGenericRingBuffer::push` (overwrite-on-full ring
buffer, oldest element first): when the buffer is at capacity the oldest
element is dropped before appending the new one. -/
def rbPush (cap : Nat) (buf : List Nat) (e : Nat) : List Nat :=
  if buf.length = cap then buf.tail ++ [e] else buf ++ [e]

/-- Functional model of `ConstGenericRingBuffer::get(0)`: the oldest element,
or `none` when the buffer is empty. -/
def rbGet0 (buf : List Nat) : Option Nat :=
  buf.head?

/-- The state visible to the `particles` system: the ring buffer of
`ParticleParams` (oldest handle first), the engine's fresh entity-id counter,
and the list of despawn requests issued so far (in order of issue). -/
structure SimState where
  ringbuffer : List Nat
  nextId : Nat
  destroyed : List Nat
deriving DecidableEq

/-- First half of a tick iteration (src/main.rs:40-42): if `get(0)` returns a
handle, issue a recursive despawn request for it. -/
def destroyStep (s : SimState) : SimState :=
  match rbGet0 s.ringbuffer with
  | some e => { s with destroyed := s.destroyed ++ [e] }
  | none => s

/-- Second half of a tick iteration (src/main.rs:43-45): spawn a fresh entity
and push its handle into the ring buffer. -/
def createStep (s : SimState) : SimState :=
  { s with
    ringbuffer := rbPush MAX_PARTICLES s.ringbuffer s.nextId
    nextId := s.nextId + 1 }

/-- One iteration of the loop body of `particles`: despawn request first,
then spawn-and-push. -/
def tickOnce (s : SimState) : SimState :=
  createStep (destroyStep s)

/-- The `particles` system (src/main.rs:38-47): `for _ in 0..1 { ... }`,
i.e. one loop iteration per engine tick in this variant (spawn count 1). -/
def particles (s : SimState) : SimState :=
  (List.range 1).foldl (fun st _ => tickOnce st) s

/-- Initial state: empty ring buffer (`ConstGenericRingBuffer::default`),
no entities yet, no despawn requests issued. -/
def initState : SimState :=
  ⟨[], 0, []⟩

/-- The state after `k` ticks of the `particles` system from the empty
buffer. -/
def run : Nat → SimState
  | 0 => initState
  | k + 1 => particles (run k)

/-- Number of live particles after the given state: entities created so far
(ids below the fresh-id counter) that have not received a despawn request. -/
def liveCount (s : SimState) : Nat :=
  ((Finset.range s.nextId).filter (fun i => i ∉ s.destroyed)).card

/-- Closed form of the ring buffer after `k` ticks: the most recent
`min k MAX_PARTICLES` entity ids, oldest first. -/
def rbAfter (k : Nat) : List Nat :=
  (List.range k).drop (k - MAX_PARTICLES)

/-- Closed form of the despawn-request list after `k` ticks: handle 0 is
despawn-requested on every tick from tick 2 up to tick `MAX_PARTICLES + 1`,
and from tick `MAX_PARTICLES + 2` on, tick `k` despawn-requests handle
`k - (MAX_PARTICLES + 1)`. -/
def destroyedAfter (k : Nat) : List Nat :=
  List.replicate (min (k - 1) MAX_PARTICLES) 0
    ++ (List.range (k - (MAX_PARTICLES + 1))).map (· + 1)

/-- Closed form of the live-particle count after `k` ticks. -/
def liveAfter (k : Nat) : Nat :=
  if k ≤ 1 then k else min (k - 1) MAX_PARTICLES

/-- The base particle radius set by `setup` (src/main.rs:55): `0.05`. -/
def particleRadius : ℚ := 1 / 20

/-- The position jitter window of `spawn_particles` (src/main.rs:103):
`let spread = 0.1`. -/
def spread : ℚ := 1 / 10

/-- The numeric components attached to a freshly spawned particle by
`spawn_particles` (src/main.rs:101-146). -/
structure ParticleSpawn where
  scale : ℚ
  colliderRadius : ℚ
  restitution : ℚ
  density : ℚ
  friction : ℚ
  lightIntensity : ℚ
  lightRange : ℚ
  position : ℚ × ℚ × ℚ
  velocity : ℚ × ℚ × ℚ
deriving DecidableEq

/-- `spawn_particles` (src/main.rs:101-146) as a function of the base radius
read from `ParticleParams` and the random draws (each `fastrand::f32()` value
lies in `[0, 1)`): `uScale` sizes the particle, `ux`/`uy`/`uz` jitter its
spawn position around the anchor `(0, 40, 0)`, `uvx`/`uvz` pick its
horizontal velocity. -/
def spawn_particles (radius uScale ux uy uz uvx uvz : ℚ) : ParticleSpawn :=
  let scale := 1 + uScale
  { scale := scale
    colliderRadius := radius * scale
    restitution := 3 / 10
    density := 1 / 100
    friction := 1 / 10
    lightIntensity := 10000 * scale * radius
    lightRange := 100 * radius * scale
    position := (ux * spread - spread / 2,
      uy * spread - spread / 2 + 40,
      uz * spread - spread / 2)
    velocity := ((uvx - 1 / 2) * 50, -5, (uvz - 1 / 2) * 50) }

/-- Obstacle height draw in `spawn_ground` (src/main.rs:185):
`fastrand::f32() * 20.0`. -/
def obstacleHeight (u : ℚ) : ℚ := u * 20

/-- Visual transform scale of a generated obstacle (src/main.rs:196):
`Vec3::new(5.0, height, 5.0)`. -/
def obstacleVisualScale (height : ℚ) : ℚ × ℚ × ℚ := (5, height, 5)

/-- Static cuboid collider of a generated obstacle (src/main.rs:202-206):
half-extends `Vec3::new(5.0 / 2.0, height / 2.0, 5.0 / 2.0)`. -/
def obstacleColliderHalfExtends (height : ℚ) : ℚ × ℚ × ℚ :=
  (5 / 2, height / 2, 5 / 2)

/-- Elapsed-time parameter of `daylight_cycle` (src/main.rs:226):
milliseconds since startup divided by 5000. -/
noncomputable def elapsed_t (millis : ℝ) : ℝ := millis / 5000

/-- Sun position written by `daylight_cycle` (src/main.rs:227-229):
`(sin t, sin t * 0.5, cos t)`. -/
noncomputable def sun_position (t : ℝ) : ℝ × ℝ × ℝ :=
  (Real.sin t, Real.sin t * 0.5, Real.cos t)

/-- Illuminance written by `daylight_cycle` (src/main.rs:236):
`pos.y.max(0.0).powf(2.0) * 100000.0`. -/
noncomputable def illuminance (posY : ℝ) : ℝ :=
  (max posY 0) ^ (2 : ℝ) * 100000

lemma particles_eq_tickOnce (s : SimState) : particles s = tickOnce s := rfl

lemma destroyStep_ringbuffer (s : SimState) :
    (destroyStep s).ringbuffer = s.ringbuffer := by
  unfold destroyStep
  cases h : rbGet0 s.ringbuffer <;> simp

lemma destroyStep_nextId (s : SimState) :
    (destroyStep s).nextId = s.nextId := by
  unfold destroyStep
  cases h : rbGet0 s.ringbuffer <;> simp

lemma length_rbAfter (k : Nat) : (rbAfter k).length = min k MAX_PARTICLES := by
  unfold rbAfter
  simp [MAX_PARTICLES]
  omega

lemma head?_rbAfter (k : Nat) (hk : 1 ≤ k) :
    (rbAfter k).head? = some (k - MAX_PARTICLES) := by
  unfold rbAfter
  rw [List.head?_drop]
  rw [List.getElem?_range (by unfold MAX_PARTICLES; omega)]

lemma rbPush_rbAfter (k : Nat) :
    rbPush MAX_PARTICLES (rbAfter k) k = rbAfter (k + 1) := by
  unfold rbPush
  rw [length_rbAfter]
  unfold rbAfter MAX_PARTICLES
  by_cases hk : k < 512
  · have e1 : k - 512 = 0 := by omega
    have e2 : k + 1 - 512 = 0 := by omega
    rw [if_neg (by omega), e1, e2]
    simp [List.range_succ]
  · rw [if_pos (by omega)]
    rw [List.tail_drop]
    have e1 : k - 512 + 1 = k + 1 - 512 := by omega
    rw [e1, List.range_succ,
      List.drop_append_of_le_length (by simp)]

lemma destroyedAfter_succ (k : Nat) (hk : 1 ≤ k) :
    destroyedAfter (k + 1) = destroyedAfter k ++ [k - MAX_PARTICLES] := by
  unfold destroyedAfter MAX_PARTICLES
  by_cases hk2 : k ≤ 512
  · have e1 : k + 1 - (512 + 1) = 0 := by omega
    have e2 : k - (512 + 1) = 0 := by omega
    have e3 : k - 512 = 0 := by omega
    have hmin : min (k + 1 - 1) 512 = (k - 1) + 1 := by omega
    have hmin' : min (k - 1) 512 = k - 1 := by omega
    rw [e1, e2, e3, hmin, hmin', List.replicate_succ']
    simp only [List.range_zero, List.map_nil, List.append_nil, List.append_assoc]
  · have hmin : min (k + 1 - 1) 512 = 512 := by omega
    have hmin' : min (k - 1) 512 = 512 := by omega
    have hr : k + 1 - (512 + 1) = (k - (512 + 1)) + 1 := by omega
    have hr2 : k - (512 + 1) + 1 = k - 512 := by omega
    rw [hmin, hmin', hr, List.range_succ]
    simp only [List.map_append, List.map_cons, List.map_nil, List.append_assoc,
      hr2]

/-- The state after `k` ticks, in closed form. -/
lemma run_spec (k : Nat) : run k = ⟨rbAfter k, k, destroyedAfter k⟩ := by
  induction k with
  | zero =>
    unfold run initState rbAfter destroyedAfter
    simp
  | succ k ih =>
    show particles (run k) = _
    rw [particles_eq_tickOnce, ih]
    by_cases hk : 1 ≤ k
    · have h1 := head?_rbAfter k hk
      have h2 := rbPush_rbAfter k
      have h3 := destroyedAfter_succ k hk
      simp [tickOnce, destroyStep, createStep, rbGet0, h1, h2, h3]
    · have hk0 : k = 0 := by omega
      subst hk0
      decide

lemma run_ringbuffer (k : Nat) : (run k).ringbuffer = rbAfter k := by
  rw [run_spec]

lemma run_nextId (k : Nat) : (run k).nextId = k := by
  rw [run_spec]

lemma run_destroyed (k : Nat) : (run k).destroyed = destroyedAfter k := by
  rw [run_spec]

lemma mem_destroyedAfter (k x : Nat) :
    x ∈ destroyedAfter k ↔
      (2 ≤ k ∧ x = 0) ∨ (1 ≤ x ∧ x + (MAX_PARTICLES + 1) ≤ k) := by
  unfold destroyedAfter MAX_PARTICLES
  simp only [List.mem_append, List.mem_replicate, List.mem_map, List.mem_range]
  constructor
  · rintro (⟨hne, hx⟩ | ⟨a, ha, rfl⟩)
    · exact Or.inl ⟨by omega, hx⟩
    · exact Or.inr ⟨by omega, by omega⟩
  · rintro (⟨hk, rfl⟩ | ⟨hx, hxk⟩)
    · exact Or.inl ⟨by omega, rfl⟩
    · exact Or.inr ⟨x - 1, by omega, by omega⟩

lemma length_destroyedAfter (k : Nat) :
    (destroyedAfter k).length
      = min (k - 1) MAX_PARTICLES + (k - (MAX_PARTICLES + 1)) := by
  unfold destroyedAfter
  simp

/-- The live-particle count after `k` ticks equals its closed form. -/
lemma liveCount_run (k : Nat) : liveCount (run k) = liveAfter k := by
  rw [run_spec]
  rcases k with _ | _ | k
  · decide
  · decide
  · show ((Finset.range (k + 2)).filter
        (fun i => i ∉ destroyedAfter (k + 2))).card = liveAfter (k + 2)
    have hset : (Finset.range (k + 2)).filter
          (fun i => i ∉ destroyedAfter (k + 2))
        = Finset.Ico (max 1 (k + 2 - MAX_PARTICLES)) (k + 2) := by
      ext x
      simp only [Finset.mem_filter, Finset.mem_range, Finset.mem_Ico,
        mem_destroyedAfter, MAX_PARTICLES]
      omega
    rw [hset, Nat.card_Ico]
    unfold liveAfter MAX_PARTICLES
    rw [if_neg (by omega)]
    omega

lemma liveAfter_le (k : Nat) : liveAfter k ≤ MAX_PARTICLES := by
  unfold liveAfter MAX_PARTICLES
  split <;> omega

/-- Issuing a despawn request never increases the live-particle count. -/
lemma liveCount_destroyStep_le (s : SimState) :
    liveCount (destroyStep s) ≤ liveCount s := by
  cases h : rbGet0 s.ringbuffer with
  | none => simp [destroyStep, h]
  | some e =>
    simp only [destroyStep, h]
    unfold liveCount
    simp only
    apply Finset.card_le_card
    intro x hx
    rw [Finset.mem_filter] at hx ⊢
    refine ⟨hx.1, fun hmem => hx.2 ?_⟩
    simp [hmem]

lemma destroyed_run_full :
    (run (MAX_PARTICLES + 1)).destroyed = List.replicate MAX_PARTICLES 0 := by
  rw [run_destroyed]
  unfold destroyedAfter MAX_PARTICLES
  norm_num

lemma ringbuffer_run_full :
    (run (MAX_PARTICLES + 1)).ringbuffer
      = (List.range MAX_PARTICLES).map (· + 1) := by
  rw [run_ringbuffer]
  unfold rbAfter MAX_PARTICLES
  have e : 512 + 1 - 512 = 1 := by norm_num
  rw [List.range_succ_eq_map, e, List.drop_one, List.tail_cons]

/-- C1: for every sequence of ticks of the particle lifecycle manager starting
from the empty buffer, the ring buffer length never exceeds the capacity
`MAX_PARTICLES = 512`, at tick boundaries and at the intermediate point inside
a tick (the despawn half leaves the buffer untouched; it only changes at the
final `rbPush`). -/
theorem capacity_invariant (k : Nat) :
    (run k).ringbuffer.length ≤ MAX_PARTICLES ∧
      (destroyStep (run k)).ringbuffer.length ≤ MAX_PARTICLES := by
  have h : (run k).ringbuffer.length ≤ MAX_PARTICLES := by
    rw [run_ringbuffer, length_rbAfter]
    exact min_le_right _ _
  exact ⟨h, by rwa [destroyStep_ringbuffer]⟩

/-- C2 (counterexample): after the `(MAX_PARTICLES + 1)`-th spawn, the first
handle (0) has received `MAX_PARTICLES` despawn requests, not exactly one, so
the claimed conjunction is false. -/
theorem fifo_eviction_cex :
    ¬ ((run (MAX_PARTICLES + 1)).destroyed.count 0 = 1 ∧
        0 ∉ (run (MAX_PARTICLES + 1)).ringbuffer ∧
        (run (MAX_PARTICLES + 1)).ringbuffer
          = (List.range MAX_PARTICLES).map (· + 1)) := by
  intro h
  have h1 := h.1
  rw [destroyed_run_full, List.count_replicate_self] at h1
  exact absurd h1 (by decide)

/-- C2 (amended): after the `(MAX_PARTICLES + 1)`-th spawn, the first handle
(0, particle p1) has been issued `MAX_PARTICLES` despawn requests — one per
tick from the 2nd to the `(MAX_PARTICLES + 1)`-th — and is no longer in the
ring buffer, while handles 1 to `MAX_PARTICLES` (p2 to p(MAX_PARTICLES+1))
are in the buffer in spawn order. -/
theorem fifo_eviction_amended :
    (run (MAX_PARTICLES + 1)).destroyed.count 0 = MAX_PARTICLES ∧
      0 ∉ (run (MAX_PARTICLES + 1)).ringbuffer ∧
      (run (MAX_PARTICLES + 1)).ringbuffer
        = (List.range MAX_PARTICLES).map (· + 1) := by
  refine ⟨?_, ?_, ringbuffer_run_full⟩
  · rw [destroyed_run_full, List.count_replicate_self]
  · rw [ringbuffer_run_full]
    simp

/-- C3 (counterexample): after tick 1 the ring buffer holds a single handle —
strictly below capacity, never having been at capacity — yet tick 2 issues a
despawn request. -/
theorem no_early_eviction_cex :
    (run 1).ringbuffer.length < MAX_PARTICLES ∧
      (run 2).destroyed.length ≠ (run 1).destroyed.length := by
  decide

/-- C3 (amended): a despawn request is issued on a tick exactly when the ring
buffer is non-empty at the start of the tick: none on the cold-start (empty
buffer) tick, one on every other tick — regardless of whether the buffer has
ever reached capacity. -/
theorem eviction_iff_nonempty (k : Nat) :
    (run (k + 1)).destroyed.length
      = (run k).destroyed.length
          + (if (run k).ringbuffer = [] then 0 else 1) := by
  rcases k with _ | k
  · decide
  · have hne : (run (k + 1)).ringbuffer ≠ [] := by
      rw [run_ringbuffer]
      intro h
      have hlen := congrArg List.length h
      rw [length_rbAfter] at hlen
      simp only [List.length_nil] at hlen
      unfold MAX_PARTICLES at hlen
      omega
    rw [if_neg hne, run_destroyed, run_destroyed, length_destroyedAfter,
      length_destroyedAfter]
    unfold MAX_PARTICLES
    omega

/-- C4 (counterexample): after 2 ticks only one particle is live — the first
was already despawn-requested on tick 2 — not `min (2 * 1) MAX_PARTICLES = 2`
as claimed. -/
theorem warmup_count_cex : liveCount (run 2) ≠ min (2 * 1) MAX_PARTICLES := by
  decide

/-- C4 (amended): starting from the empty buffer, the live count after `k`
ticks equals `k` for `k ≤ 1` and `min (k - 1) MAX_PARTICLES` afterwards: the
oldest handle is despawn-requested from tick 2 on, so the warm-up count lags
the claimed `min (k * 1) MAX_PARTICLES` by one from the second tick. -/
theorem warmup_count_amended (k : Nat) :
    liveCount (run k) = if k ≤ 1 then k else min (k - 1) MAX_PARTICLES := by
  rw [liveCount_run]
  rfl

/-- C5 (counterexample): after `MAX_PARTICLES` ticks (= ceil(capacity / 1))
the live count is 511, one short of capacity. -/
theorem steady_state_cex : liveCount (run MAX_PARTICLES) ≠ MAX_PARTICLES := by
  rw [liveCount_run]
  decide

/-- C5 (amended): steady state is reached one tick later than claimed: from
tick `MAX_PARTICLES + 1` on, the live count equals `MAX_PARTICLES` and stays
there, and exactly one despawn request has been issued per tick except the
first, so the despawn-request total after `k` ticks is `k - 1`. -/
theorem steady_state_amended (k : Nat) (hk : MAX_PARTICLES + 1 ≤ k) :
    liveCount (run k) = MAX_PARTICLES ∧
      (run k).destroyed.length = k - 1 := by
  unfold MAX_PARTICLES at hk
  constructor
  · rw [liveCount_run]
    unfold liveAfter MAX_PARTICLES
    rw [if_neg (by omega)]
    omega
  · rw [run_destroyed, length_destroyedAfter]
    unfold MAX_PARTICLES
    omega

/-- C5 witness: the amended steady-state property at tick 513. -/
theorem steady_state_amended_witness :
    MAX_PARTICLES + 1 ≤ 513 ∧
      (liveCount (run 513) = MAX_PARTICLES ∧
        (run 513).destroyed.length = 513 - 1) :=
  ⟨by decide, steady_state_amended 513 (by decide)⟩

/-- C6: within every tick, the despawn request is issued before the create
request: the tick is definitionally the despawn half followed by the create
half, the despawn half never increases the live count, and the live count is
at most capacity both at every tick boundary and at the intermediate point
between despawn and create. -/
theorem despawn_before_spawn (k : Nat) :
    particles (run k) = createStep (destroyStep (run k)) ∧
      liveCount (destroyStep (run k)) ≤ liveCount (run k) ∧
      liveCount (run k) ≤ MAX_PARTICLES ∧
      liveCount (destroyStep (run k)) ≤ MAX_PARTICLES := by
  have h1 : liveCount (run k) ≤ MAX_PARTICLES := by
    rw [liveCount_run]
    exact liveAfter_le k
  have h2 := liveCount_destroyStep_le (run k)
  exact ⟨rfl, h2, h1, le_trans h2 h1⟩

/-- C7: every synthesized particle has scale in [1, 2); its spawn position is
the anchor (0, 40, 0) offset by less than `spread / 2 = 1/20 = 0.05` in each
axis (offsets lie in [-1/20, 1/20)); its point-light intensity
`10000 * scale * radius` and collider radius `radius * scale` are
non-negative; and both grow strictly with the scale draw. -/
theorem synthesis_bounds (us us' ux uy uz uvx uvz : ℚ)
    (hus0 : 0 ≤ us) (hus1 : us < 1) (hus0' : 0 ≤ us') (hus1' : us' < 1)
    (hux0 : 0 ≤ ux) (hux1 : ux < 1) (huy0 : 0 ≤ uy) (huy1 : uy < 1)
    (huz0 : 0 ≤ uz) (huz1 : uz < 1) (hmono : us < us') :
    1 ≤ (spawn_particles particleRadius us ux uy uz uvx uvz).scale ∧
    (spawn_particles particleRadius us ux uy uz uvx uvz).scale < 2 ∧
    -(spread / 2)
      ≤ (spawn_particles particleRadius us ux uy uz uvx uvz).position.1 ∧
    (spawn_particles particleRadius us ux uy uz uvx uvz).position.1
      < spread / 2 ∧
    40 - spread / 2
      ≤ (spawn_particles particleRadius us ux uy uz uvx uvz).position.2.1 ∧
    (spawn_particles particleRadius us ux uy uz uvx uvz).position.2.1
      < 40 + spread / 2 ∧
    -(spread / 2)
      ≤ (spawn_particles particleRadius us ux uy uz uvx uvz).position.2.2 ∧
    (spawn_particles particleRadius us ux uy uz uvx uvz).position.2.2
      < spread / 2 ∧
    0 ≤ (spawn_particles particleRadius us ux uy uz uvx uvz).lightIntensity ∧
    0 ≤ (spawn_particles particleRadius us ux uy uz uvx uvz).colliderRadius ∧
    (spawn_particles particleRadius us ux uy uz uvx uvz).lightIntensity
      < (spawn_particles particleRadius us' ux uy uz uvx uvz).lightIntensity ∧
    (spawn_particles particleRadius us ux uy uz uvx uvz).colliderRadius
      < (spawn_particles particleRadius us' ux uy uz uvx uvz).colliderRadius
    := by
  simp only [spawn_particles, particleRadius, spread]
  refine ⟨by linarith, by linarith, by linarith, by linarith, by linarith,
    by linarith, by linarith, by linarith, by linarith, by linarith,
    by linarith, by linarith⟩

/-- C7 witness: the synthesis bounds at the concrete draws
us = 1/2, us' = 3/4, ux = uy = uz = 1/4, uvx = uvz = 0. -/
theorem synthesis_bounds_witness :
    ((0 : ℚ) ≤ 1 / 2 ∧ (1 / 2 : ℚ) < 1 ∧ (0 : ℚ) ≤ 3 / 4 ∧ (3 / 4 : ℚ) < 1 ∧
      (0 : ℚ) ≤ 1 / 4 ∧ (1 / 4 : ℚ) < 1 ∧ (1 / 2 : ℚ) < 3 / 4) ∧
    (1 ≤ (spawn_particles particleRadius (1 / 2) (1 / 4) (1 / 4) (1 / 4) 0 0).scale ∧
    (spawn_particles particleRadius (1 / 2) (1 / 4) (1 / 4) (1 / 4) 0 0).scale < 2 ∧
    -(spread / 2)
      ≤ (spawn_particles particleRadius (1 / 2) (1 / 4) (1 / 4) (1 / 4) 0 0).position.1 ∧
    (spawn_particles particleRadius (1 / 2) (1 / 4) (1 / 4) (1 / 4) 0 0).position.1
      < spread / 2 ∧
    40 - spread / 2
      ≤ (spawn_particles particleRadius (1 / 2) (1 / 4) (1 / 4) (1 / 4) 0 0).position.2.1 ∧
    (spawn_particles particleRadius (1 / 2) (1 / 4) (1 / 4) (1 / 4) 0 0).position.2.1
      < 40 + spread / 2 ∧
    -(spread / 2)
      ≤ (spawn_particles particleRadius (1 / 2) (1 / 4) (1 / 4) (1 / 4) 0 0).position.2.2 ∧
    (spawn_particles particleRadius (1 / 2) (1 / 4) (1 / 4) (1 / 4) 0 0).position.2.2
      < spread / 2 ∧
    0 ≤ (spawn_particles particleRadius (1 / 2) (1 / 4) (1 / 4) (1 / 4) 0 0).lightIntensity ∧
    0 ≤ (spawn_particles particleRadius (1 / 2) (1 / 4) (1 / 4) (1 / 4) 0 0).colliderRadius ∧
    (spawn_particles particleRadius (1 / 2) (1 / 4) (1 / 4) (1 / 4) 0 0).lightIntensity
      < (spawn_particles particleRadius (3 / 4) (1 / 4) (1 / 4) (1 / 4) 0 0).lightIntensity ∧
    (spawn_particles particleRadius (1 / 2) (1 / 4) (1 / 4) (1 / 4) 0 0).colliderRadius
      < (spawn_particles particleRadius (3 / 4) (1 / 4) (1 / 4) (1 / 4) 0 0).colliderRadius) :=
  ⟨by norm_num,
    synthesis_bounds (1 / 2) (3 / 4) (1 / 4) (1 / 4) (1 / 4) 0 0
      (by norm_num) (by norm_num) (by norm_num) (by norm_num) (by norm_num)
      (by norm_num) (by norm_num) (by norm_num) (by norm_num) (by norm_num)
      (by norm_num)⟩

/-- C8: at elapsed time 0, the sun cycle computes the sun position
(sin 0, sin 0 * 0.5, cos 0) = (0, 0, 1) and sets the directional light
illuminance to (max 0 0) ^ 2 * 100000 = 0. -/
theorem sun_cycle_at_zero :
    sun_position (elapsed_t 0) = (0, 0, 1) ∧
      illuminance (sun_position (elapsed_t 0)).2.1 = 0 := by
  have ht : elapsed_t 0 = 0 := by
    unfold elapsed_t
    norm_num
  rw [ht]
  unfold sun_position illuminance
  simp only [Real.sin_zero, Real.cos_zero, zero_mul, max_self, Prod.mk.injEq,
    and_self, true_and]
  rw [Real.zero_rpow (by norm_num), zero_mul]

/-- C9: every generated obstacle's static cuboid collider half-extends equal
exactly half of its visual transform scale in each axis: (5/2, height/2, 5/2)
against the visual scale (5, height, 5). -/
theorem obstacle_collider_matches_visual (u : ℚ) :
    obstacleColliderHalfExtends (obstacleHeight u)
      = ((obstacleVisualScale (obstacleHeight u)).1 / 2,
          (obstacleVisualScale (obstacleHeight u)).2.1 / 2,
          (obstacleVisualScale (obstacleHeight u)).2.2 / 2) := by
  rfl

/-- C10: on every tick from the 2nd up to the `MAX_PARTICLES`-th — before the
ring buffer first wraps — the first handle (0) is still at the oldest buffer
position even though it was already despawn-requested, and it has received one
fresh despawn request per tick so far (`k - 1` of them after `k` ticks): the
buffer holds handles of already-destroyed entities, and one handle receives
many despawn requests. -/
theorem stale_handle_redestroyed (k : Nat) (h2 : 2 ≤ k)
    (hcap : k ≤ MAX_PARTICLES) :
    (run k).ringbuffer.head? = some 0 ∧
      0 ∈ (run k).ringbuffer ∧
      0 ∈ (run k).destroyed ∧
      (run k).destroyed.count 0 = k - 1 := by
  unfold MAX_PARTICLES at hcap
  have hz : k - MAX_PARTICLES = 0 := by
    unfold MAX_PARTICLES
    omega
  refine ⟨?_, ?_, ?_, ?_⟩
  · rw [run_ringbuffer, head?_rbAfter k (by omega), hz]
  · rw [run_ringbuffer]
    unfold rbAfter
    rw [hz, List.drop_zero, List.mem_range]
    omega
  · rw [run_destroyed, mem_destroyedAfter]
    exact Or.inl ⟨h2, rfl⟩
  · rw [run_destroyed]
    unfold destroyedAfter
    have h0 : k - (MAX_PARTICLES + 1) = 0 := by
      unfold MAX_PARTICLES
      omega
    rw [h0]
    simp only [List.range_zero, List.map_nil, List.append_nil,
      List.count_replicate_self]
    unfold MAX_PARTICLES
    omega

/-- C10 witness: the stale-handle property instantiated at tick 5. -/
theorem stale_handle_redestroyed_witness :
    2 ≤ 5 ∧ 5 ≤ MAX_PARTICLES ∧
      ((run 5).ringbuffer.head? = some 0 ∧
        0 ∈ (run 5).ringbuffer ∧
        0 ∈ (run 5).destroyed ∧
        (run 5).destroyed.count 0 = 5 - 1) :=
  ⟨by decide, by decide, stale_handle_redestroyed 5 (by decide) (by decide)⟩

end Bevyjam
